import Mathlib

/-!
Shallow embedding of `run-fan.py`, a temperature-hysteresis fan controller
for a Raspberry Pi, together with proofs about its control logic, error
paths and log rotation.

Temperatures are modelled as rationals (the Python code uses floats, but
all thresholds and comparisons in scope involve small decimal constants
that are exactly representable, so the ordering behaviour coincides).
-/

namespace RunFan

/-- Threshold configuration held by the `Temperature` class:
`startTemperature` and `stopTemperature` in degrees Celsius. -/
structure TempConfig where
  startTemperature : ℚ
  stopTemperature : ℚ
  deriving DecidableEq, Repr

/-- `Temperature.__init__` (lines 152-163): start at 67.0,
stop at `startTemperature - 5.0`. -/
def defaultTempConfig : TempConfig :=
  { startTemperature := 67, stopTemperature := 67 - 5 }

/-- `Temperature.checkTemperature` (lines 173-182) acting on `Fan.fanOff`
(`true` means the fan is OFF).  Returns the new `fanOff` flag together with
the command issued to the pin driver by `Fan.setFan` / `Pin.set`
(`some b` means `GPIO.output(pin, b)` was called with logical level `b`;
`none` means no driver command was issued this tick).  `Fan.setFan`
(lines 138-144) performs `myPin.set(on)` and then `self.fanOff = not on`. -/
def checkTemperature (cfg : TempConfig) (fanOff : Bool) (cpuTemperature : ℚ) :
    Bool × Option Bool :=
  if cpuTemperature > cfg.startTemperature then
    if fanOff then (false, some true) else (fanOff, none)
  else if cpuTemperature ≤ cfg.stopTemperature then
    if !fanOff then (true, some false) else (fanOff, none)
  else (fanOff, none)

/-- The default configuration written out: `67 - 5 = 62`. -/
theorem defaultTempConfig_eq : defaultTempConfig = ⟨67, 62⟩ := by
  norm_num [defaultTempConfig]

/-- The logical fan state recorded by the controller: the code stores
`fanOff`, so the fan is recorded as ON exactly when `fanOff` is `false`. -/
def fanStateOn (fanOff : Bool) : Bool := !fanOff

/-- Iterate `checkTemperature` over a list of successful samples (one per
tick of the main loop, lines 190-202), collecting the per-tick driver
command (`none` when the tick issued no command). -/
def runTicks (cfg : TempConfig) (fanOff : Bool) :
    List ℚ → Bool × List (Option Bool)
  | [] => (fanOff, [])
  | t :: ts =>
    let step := checkTemperature cfg fanOff t
    let rest := runTicks cfg step.1 ts
    (rest.1, step.2 :: rest.2)

/-- The driver commands actually issued over a run, in order. -/
def commandsIssued (cfg : TempConfig) (fanOff : Bool) (l : List ℚ) :
    List Bool :=
  (runTicks cfg fanOff l).2.reduceOption

/-- C1: per-tick hysteresis decision.  With thresholds `S > s`:
a sample strictly above `S` with the fan OFF commands the driver ON and
records ON; a sample at or below `s` with the fan ON commands the driver
OFF and records OFF; in every other case (the band `(s, S]`, or no change
needed) no driver command is issued and the recorded state is unchanged.
In particular a sample exactly `S` with the fan OFF causes no transition,
and a sample exactly `s` with the fan ON turns the fan OFF. -/
theorem checkTemperature_hysteresis_spec (S s : ℚ) (hss : s < S)
    (fanOff : Bool) (t : ℚ) :
    (t > S → fanOff = true →
      checkTemperature ⟨S, s⟩ fanOff t = (false, some true))
    ∧ (t ≤ s → fanOff = false →
      checkTemperature ⟨S, s⟩ fanOff t = (true, some false))
    ∧ (¬ (t > S ∧ fanOff = true) → ¬ (t ≤ s ∧ fanOff = false) →
      checkTemperature ⟨S, s⟩ fanOff t = (fanOff, none))
    ∧ (fanOff = true → checkTemperature ⟨S, s⟩ fanOff S = (true, none))
    ∧ (fanOff = false → checkTemperature ⟨S, s⟩ fanOff s = (true, some false)) := by
  unfold checkTemperature
  refine ⟨?_, ?_, ?_, ?_, ?_⟩
  · intro ht hf
    simp [ht, hf]
  · intro ht hf
    have hns : ¬ (t > S) := not_lt.mpr (ht.trans hss.le)
    simp [hns, ht, hf]
  · intro h1 h2
    by_cases ht : t > S
    · have hf : fanOff = false := by
        cases fanOff with
        | false => rfl
        | true => exact absurd ⟨ht, rfl⟩ h1
      simp [ht, hf]
    · by_cases hts : t ≤ s
      · have hf : fanOff = true := by
          cases fanOff with
          | false => exact absurd ⟨hts, rfl⟩ h2
          | true => rfl
        simp [ht, hts, hf]
      · simp [ht, hts]
  · intro hf
    simp [lt_irrefl, hf, not_le.mpr hss]
  · intro hf
    simp [not_lt.mpr hss.le, le_refl, hf]

/-- Closed instance of `checkTemperature_hysteresis_spec` at the default
thresholds 67/62, evaluated concretely. -/
theorem checkTemperature_hysteresis_spec_witness :
    ((62 : ℚ) < 67)
    ∧ (((70 : ℚ) > 67 → true = true →
        checkTemperature ⟨67, 62⟩ true 70 = (false, some true))
      ∧ ((70 : ℚ) ≤ 62 → true = false →
        checkTemperature ⟨67, 62⟩ true 70 = (true, some false))
      ∧ (¬ ((70 : ℚ) > 67 ∧ true = true) → ¬ ((70 : ℚ) ≤ 62 ∧ true = false) →
        checkTemperature ⟨67, 62⟩ true 70 = (true, none))
      ∧ (true = true → checkTemperature ⟨67, 62⟩ true 67 = (true, none))
      ∧ (true = false → checkTemperature ⟨67, 62⟩ true 62 = (true, some false))) :=
  ⟨by norm_num, checkTemperature_hysteresis_spec 67 62 (by norm_num) true 70⟩

/-- C5: a driver command is issued only when the desired state differs
from the recorded fan state, and whenever a command `b` is issued the
recorded state is updated so that it records exactly the commanded output;
a tick issuing no command leaves the recorded state unchanged. -/
theorem setFan_only_on_state_change (cfg : TempConfig) (fanOff : Bool) (t : ℚ) :
    (∀ b : Bool, (checkTemperature cfg fanOff t).2 = some b →
      b ≠ fanStateOn fanOff ∧ fanStateOn (checkTemperature cfg fanOff t).1 = b)
    ∧ ((checkTemperature cfg fanOff t).2 = none →
      (checkTemperature cfg fanOff t).1 = fanOff) := by
  unfold checkTemperature fanStateOn
  by_cases h1 : t > cfg.startTemperature
  · cases fanOff <;> simp [h1]
  · by_cases h2 : t ≤ cfg.stopTemperature
    · cases fanOff <;> simp [h1, h2]
    · simp [h1, h2]

/-- Closed instance of `setFan_only_on_state_change`: at the default
thresholds, fan OFF and sample 70, the issued ON command differs from the
recorded state and the new recorded state is ON. -/
theorem setFan_only_on_state_change_witness :
    true ≠ fanStateOn true
    ∧ fanStateOn (checkTemperature defaultTempConfig true 70).1 = true :=
  (setFan_only_on_state_change defaultTempConfig true 70).1 true (by decide)

/-- Once the fan is recorded ON, a run of samples strictly above `S`
issues no commands and leaves it ON. -/
theorem runTicks_all_hot_on (S s : ℚ) :
    ∀ l : List ℚ, (∀ x ∈ l, x > S) →
      runTicks ⟨S, s⟩ false l = (false, l.map fun _ => none) := by
  intro l
  induction l with
  | nil => intro _; rfl
  | cons t ts ih =>
    intro h
    have ht : t > S := h t (List.mem_cons_self t ts)
    have hts : ∀ x ∈ ts, x > S := fun x hx => h x (List.mem_cons_of_mem t hx)
    simp [runTicks, checkTemperature, ht, ih hts]

/-- Once the fan is recorded OFF, a run of samples at or below `s < S`
issues no commands and leaves it OFF. -/
theorem runTicks_all_cold_off (S s : ℚ) (hss : s < S) :
    ∀ l : List ℚ, (∀ x ∈ l, x ≤ s) →
      runTicks ⟨S, s⟩ true l = (true, l.map fun _ => none) := by
  intro l
  induction l with
  | nil => intro _; rfl
  | cons t ts ih =>
    intro h
    have ht : t ≤ s := h t (List.mem_cons_self t ts)
    have hns : ¬ (t > S) := not_lt.mpr (ht.trans hss.le)
    have hts : ∀ x ∈ ts, x ≤ s := fun x hx => h x (List.mem_cons_of_mem t hx)
    simp [runTicks, checkTemperature, hns, ht, ih hts]

/-- Reducing a list of `none`s yields the empty list. -/
theorem reduceOption_replicate_none {α : Type} (n : ℕ) :
    (List.replicate n (none : Option α)).reduceOption = [] := by
  induction n with
  | zero => rfl
  | succ k ih => simpa [List.replicate_succ, List.reduceOption_cons_of_none] using ih

/-- C3: with thresholds `S > s` and from any recorded fan state, a
contiguous run of samples strictly above `S` issues at most one driver
command, a contiguous run of samples at or below `s` issues at most one
driver command, and a run of samples inside the dead-band `(s, S]` issues
no command and leaves the recorded state unchanged. -/
theorem fan_output_changes_once_per_run (S s : ℚ) (hss : s < S)
    (fanOff : Bool) (l : List ℚ) :
    ((∀ x ∈ l, x > S) → (commandsIssued ⟨S, s⟩ fanOff l).length ≤ 1)
    ∧ ((∀ x ∈ l, x ≤ s) → (commandsIssued ⟨S, s⟩ fanOff l).length ≤ 1)
    ∧ ((∀ x ∈ l, s < x ∧ x ≤ S) →
      commandsIssued ⟨S, s⟩ fanOff l = []
      ∧ (runTicks ⟨S, s⟩ fanOff l).1 = fanOff) := by
  refine ⟨?_, ?_, ?_⟩
  · intro h
    cases l with
    | nil => simp [commandsIssued, runTicks]
    | cons t ts =>
      have ht : t > S := h t (List.mem_cons_self t ts)
      have hts : ∀ x ∈ ts, x > S := fun x hx => h x (List.mem_cons_of_mem t hx)
      cases fanOff with
      | false =>
        have := runTicks_all_hot_on S s (t :: ts) h
        simp [commandsIssued, this, reduceOption_replicate_none]
      | true =>
        have := runTicks_all_hot_on S s ts hts
        simp [commandsIssued, runTicks, checkTemperature, ht, this,
          reduceOption_replicate_none]
  · intro h
    cases l with
    | nil => simp [commandsIssued, runTicks]
    | cons t ts =>
      have ht : t ≤ s := h t (List.mem_cons_self t ts)
      have hns : ¬ (t > S) := not_lt.mpr (ht.trans hss.le)
      have hts : ∀ x ∈ ts, x ≤ s := fun x hx => h x (List.mem_cons_of_mem t hx)
      cases fanOff with
      | true =>
        have := runTicks_all_cold_off S s hss (t :: ts) h
        simp [commandsIssued, this, reduceOption_replicate_none]
      | false =>
        have := runTicks_all_cold_off S s hss ts hts
        simp [commandsIssued, runTicks, checkTemperature, hns, ht, this,
          reduceOption_replicate_none]
  · intro h
    induction l with
    | nil => simp [commandsIssued, runTicks]
    | cons t ts ih =>
      have ht := h t (List.mem_cons_self t ts)
      have hns : ¬ (t > S) := not_lt.mpr ht.2
      have hns2 : ¬ (t ≤ s) := not_le.mpr ht.1
      have hts : ∀ x ∈ ts, s < x ∧ x ≤ S :=
        fun x hx => h x (List.mem_cons_of_mem t hx)
      have := ih hts
      simp [commandsIssued, runTicks, checkTemperature, hns, hns2] at this ⊢
      exact this

/-- Closed instance of `fan_output_changes_once_per_run` at the default
thresholds, fan OFF, over the hot run `[70, 80]`. -/
theorem fan_output_changes_once_per_run_witness :
    ((62 : ℚ) < 67)
    ∧ (((∀ x ∈ ([70, 80] : List ℚ), x > 67) →
        (commandsIssued ⟨67, 62⟩ true [70, 80]).length ≤ 1)
      ∧ ((∀ x ∈ ([70, 80] : List ℚ), x ≤ 62) →
        (commandsIssued ⟨67, 62⟩ true [70, 80]).length ≤ 1)
      ∧ ((∀ x ∈ ([70, 80] : List ℚ), 62 < x ∧ x ≤ 67) →
        commandsIssued ⟨67, 62⟩ true [70, 80] = []
        ∧ (runTicks ⟨67, 62⟩ true [70, 80]).1 = true)) :=
  ⟨by norm_num, fan_output_changes_once_per_run 67 62 (by norm_num) true [70, 80]⟩

/-- C4 counterexample: from fan OFF at the default thresholds 67/62, the
sample sequence [50, 68, 65, 61, 63, 90] issues THREE driver commands
(ON at 68, OFF at 61, and ON again at 90, since the fan was turned OFF at
61), not the two the claim states; in particular a command IS issued at 90. -/
theorem scenario_three_commands_cex :
    (runTicks defaultTempConfig true [50, 68, 65, 61, 63, 90]).2
      = [none, some true, none, some false, none, some true]
    ∧ commandsIssued defaultTempConfig true [50, 68, 65, 61, 63, 90]
      ≠ [true, false] := by
  have h1 : runTicks defaultTempConfig true [50, 68, 65, 61, 63, 90]
      = (false, [none, some true, none, some false, none, some true]) := by
    rw [defaultTempConfig_eq]; decide
  refine ⟨by rw [h1], ?_⟩
  intro h
  have hc : commandsIssued defaultTempConfig true [50, 68, 65, 61, 63, 90]
      = [true, false, true] := by
    unfold commandsIssued
    rw [h1]
    rfl
  rw [hc] at h
  simp at h

/-- C4 amended: from fan OFF at thresholds 67/62, the sequence
[50, 68, 65, 61, 63, 90] issues exactly three driver commands — ON at
sample 68, OFF at sample 61, and ON at sample 90 (the fan is OFF again by
then) — and no command at 50, 65 or 63. -/
theorem scenario_command_trace :
    runTicks defaultTempConfig true [50, 68, 65, 61, 63, 90]
      = (false, [none, some true, none, some false, none, some true]) := by
  rw [defaultTempConfig_eq]; decide

/-- The main loop (lines 190-202) driven by a schedule of acquisition
results: `some t` is a successful `getTemperature` read, `none` is a read
whose line cannot be parsed (`float(res)` raises `ValueError`,
lines 169-170).  There is no `try` inside the loop, so the exception
escapes the `while`: the remaining schedule is never processed.  Returns
the final `fanOff` flag, the per-tick driver commands of the ticks that
ran, and whether the loop was aborted by an escaping exception. -/
def runLoop (cfg : TempConfig) (fanOff : Bool) :
    List (Option ℚ) → Bool × List (Option Bool) × Bool
  | [] => (fanOff, [], false)
  | none :: _ => (fanOff, [], true)
  | some t :: rest =>
    let step := checkTemperature cfg fanOff t
    let r := runLoop cfg step.1 rest
    (r.1, step.2 :: r.2.1, r.2.2)

/-- Observable actions of the module-level exception handlers
(lines 204-212): write a log message, `Pin.exitPin` (GPIO cleanup),
`fileLog.close()`; `checkTemp` marks a further invocation of
`Temperature.checkTemperature` (none occurs after the loop is left). -/
inductive Action where
  | printMsg
  | exitPin
  | closeLog
  | checkTemp
  deriving DecidableEq, Repr

/-- The three ways the program's main `try` block is left early. -/
inductive ExitEvent where
  | keyboardInterrupt
  | unhandledException
  | sigterm
  deriving DecidableEq, Repr

/-- Actions performed after the main `try` block is left, with the
process exit status.  From the handlers in the source: a
`KeyboardInterrupt` (SIGINT raised while sleeping or ticking) runs the
handler at lines 204-207 (`printMsg`, `exitPin`, `fileLog.close()`) and
the script then ends normally, status 0; any other exception hits the
bare `except:` at lines 209-212, which performs the same three actions,
and the script again ends normally with status 0.  The source imports
`signal` but never installs any handler, so SIGTERM keeps the Python
default disposition: the process is terminated at once, no handler or
cleanup runs, and the reported exit status is 128 + 15 = 143 (non-zero). -/
def postEventTrace : ExitEvent → List Action × ℕ
  | .keyboardInterrupt => ([.printMsg, .exitPin, .closeLog], 0)
  | .unhandledException => ([.printMsg, .exitPin, .closeLog], 0)
  | .sigterm => ([], 143)

/-- Outcome of `Pin.__init__` (lines 111-121). -/
structure PinInitResult where
  proceeds : Bool
  loggedSudoHint : Bool
  deriving DecidableEq, Repr

/-- `Pin.__init__` (lines 111-121): the `try` arm configures the GPIO pin
and logs two messages.  On any setup failure the `except:` arm logs
"If method setup doesn't work, need to run script as sudo" and then
evaluates the bare name `exit` WITHOUT calling it — a no-op expression —
so the constructor returns normally in both cases and the program
proceeds into the control loop. -/
def pinInit (setupOk : Bool) : PinInitResult :=
  if setupOk then ⟨true, false⟩ else ⟨true, true⟩

/-- C2 counterexample: a failed acquisition (`none`) as the first schedule
entry aborts the loop — the follow-up sample 70 is never processed and no
further tick runs — refuting the claim that the loop is never aborted by
a sensor read failure. -/
theorem sensor_failure_aborts_loop_cex :
    runLoop defaultTempConfig true [none, some 70] = (true, [], true)
    ∧ ¬ (runLoop defaultTempConfig true [none, some 70]).2.2 = false := by
  refine ⟨rfl, ?_⟩
  intro h
  simp [runLoop] at h

/-- C2 amended: a sensor read that fails to parse leaves the recorded fan
state unchanged and issues no driver command, but the exception is caught
at the PROGRAM boundary, not the tick boundary: the loop is aborted (no
further tick runs), and the module-level handler logs the error, releases
the GPIO pin and closes the log, after which the process ends with
status 0. -/
theorem sensor_failure_state_preserved_loop_aborts (cfg : TempConfig)
    (fanOff : Bool) (rest : List (Option ℚ)) :
    runLoop cfg fanOff (none :: rest) = (fanOff, [], true)
    ∧ postEventTrace .unhandledException
      = ([.printMsg, .exitPin, .closeLog], 0) :=
  ⟨rfl, rfl⟩

/-- C6 (code bug): when GPIO setup raises in `Pin.__init__`, the source
logs the sudo hint and then evaluates the bare name `exit` without
calling it, so the program still proceeds into the control loop with an
unconfigured driver instead of terminating. -/
theorem pinInit_failure_still_proceeds :
    pinInit false = ⟨true, true⟩ ∧ (pinInit false).proceeds = true :=
  ⟨rfl, rfl⟩

/-- C7 counterexample: an exception escaping the tick body (e.g. a parse
failure) reaches the bare `except:` handler and the process then ends
with exit status 0, refuting the claimed non-zero exit status. -/
theorem unhandled_exception_exit_zero_cex :
    (postEventTrace .unhandledException).2 = 0
    ∧ ¬ (postEventTrace .unhandledException).2 ≠ 0 := by
  refine ⟨rfl, ?_⟩
  intro h
  exact h rfl

/-- C7 amended: any exception escaping the tick body is caught by the
module-level catch-all, which logs the fault, releases the GPIO pin and
closes the log; the process then ends with exit status 0 — the same
status as a clean keyboard-interrupt shutdown.  No exception path exits
non-zero; only an unhandled signal (SIGTERM) yields a non-zero status,
and that path runs no cleanup at all. -/
theorem unhandled_exception_cleanup_and_exit_zero :
    postEventTrace .unhandledException = ([.printMsg, .exitPin, .closeLog], 0)
    ∧ (postEventTrace .unhandledException).2
      = (postEventTrace .keyboardInterrupt).2
    ∧ (postEventTrace .sigterm).2 ≠ 0 := by
  refine ⟨rfl, rfl, ?_⟩
  intro h
  simp [postEventTrace] at h

/-- C8 counterexample: on SIGTERM (a termination signal covered by the
claim) no handler is installed, so the GPIO release is never invoked and
the exit status is non-zero, refuting the claim for the terminate
signal. -/
theorem sigterm_no_cleanup_cex :
    (postEventTrace .sigterm).1.count .exitPin = 0
    ∧ (postEventTrace .sigterm).2 ≠ 0 := by
  refine ⟨rfl, ?_⟩
  intro h
  simp [postEventTrace] at h

/-- C8 amended: on a keyboard interrupt (SIGINT) received mid-sleep, no
further tick is performed, the GPIO release runs exactly once, the log
sink is closed, and the process exits with status 0; SIGTERM, by
contrast, is not handled and terminates the process without cleanup. -/
theorem interrupt_shutdown_clean :
    (postEventTrace .keyboardInterrupt).1.count .exitPin = 1
    ∧ Action.closeLog ∈ (postEventTrace .keyboardInterrupt).1
    ∧ Action.checkTemp ∉ (postEventTrace .keyboardInterrupt).1
    ∧ (postEventTrace .keyboardInterrupt).2 = 0 := by
  refine ⟨rfl, ?_, ?_, rfl⟩
  · simp [postEventTrace]
  · simp [postEventTrace]

/-- The dated log path built in the main loop (line 193):
`"/home/pi/run-fan/logs/run-fan-{}.log".format(dateStamp())`. -/
def logPath (d : String) : String :=
  "/home/pi/run-fan/logs/run-fan-" ++ d ++ ".log"

/-- The log file opened at startup (lines 88-89). -/
def defaultLogName : String := "/home/pi/run-fan/logs/run-fan-default.log"

/-- The per-tick log rotation check (lines 192-199): compute the dated
path for today; if it differs from the currently open `logName`, close
the sink, reopen at the dated path and run the retention sweep; otherwise
do nothing.  Returns the new `logName` and whether rotation (close,
reopen, sweep) ran. -/
def rotateCheck (logName : String) (today : String) : String × Bool :=
  let tmp := logPath today
  if tmp ≠ logName then (tmp, true) else (logName, false)

/-- The retention sweep (line 199),
`find /home/pi/run-fan/logs/ -mtime +14 -delete`, acting on a directory
listing of (file name, age in days): entries strictly older than 14 days
are deleted, the rest survive. -/
def sweepLogs (files : List (String × ℕ)) : List (String × ℕ) :=
  files.filter fun f => decide (f.2 ≤ 14)

/-- `dateStamp` (lines 98-101): `strftime` with format `%Y.%m.%d`,
zero-padding the year to 4 digits and month/day to 2. -/
def pad2 (n : ℕ) : String := if n < 10 then "0" ++ toString n else toString n

/-- Zero-pad a year to 4 digits, as `%Y` does. -/
def pad4 (n : ℕ) : String :=
  if n < 10 then "000" ++ toString n
  else if n < 100 then "00" ++ toString n
  else if n < 1000 then "0" ++ toString n
  else toString n

/-- The string produced by `dateStamp` (lines 98-101) for year `y`,
month `m`, day `d`. -/
def dateStamp (y m d : ℕ) : String :=
  pad4 y ++ "." ++ pad2 m ++ "." ++ pad2 d

/-- Distinct date strings give distinct dated log paths. -/
theorem logPath_injective {d₁ d₂ : String} (h : logPath d₁ = logPath d₂) :
    d₁ = d₂ := by
  unfold logPath at h
  have hd := congrArg String.data h
  simp only [String.data_append] at hd
  exact String.ext (List.append_cancel_left (List.append_cancel_right hd))

/-- Every `dateStamp` output contains a dot, so it is never the literal
`"default"`. -/
theorem dateStamp_ne_default (y m d : ℕ) : dateStamp y m d ≠ "default" := by
  intro h
  have hmem : '.' ∈ (dateStamp y m d).data := by
    unfold dateStamp
    simp [String.data_append]
  rw [h] at hmem
  revert hmem
  decide

/-- C9: the rotation check rotates exactly when the computed dated path
differs from the open sink's path: on the first tick after a day
boundary (sink open at the previous day's dated path) it reopens at the
new day's dated path and runs the sweep, while a tick whose dated path
equals the open sink's path neither rotates nor sweeps; the sweep keeps
exactly the files aged at most 14 days, deleting the older ones. -/
theorem log_rotation_on_new_day (d d' : String) (name : String) :
    ((d' ≠ d) → rotateCheck (logPath d') d = (logPath d, true))
    ∧ (logPath d = name → rotateCheck name d = (name, false))
    ∧ (∀ files : List (String × ℕ),
        (∀ f ∈ sweepLogs files, f.2 ≤ 14)
        ∧ (∀ f ∈ files, f.2 ≤ 14 → f ∈ sweepLogs files)) := by
  refine ⟨?_, ?_, ?_⟩
  · intro hne
    have hpp : logPath d ≠ logPath d' := fun h => hne (logPath_injective h).symm
    simp [rotateCheck, hpp]
  · intro h
    simp [rotateCheck, h]
  · intro files
    constructor
    · intro f hf
      have := List.of_mem_filter hf
      simpa using this
    · intro f hf hage
      exact List.mem_filter.mpr ⟨hf, by simpa using hage⟩

/-- Closed instance of `log_rotation_on_new_day` across the boundary from
2018.03.04 to 2018.03.05: the stale dated sink is rotated, the current
dated sink is left alone. -/
theorem log_rotation_on_new_day_witness :
    rotateCheck (logPath "2018.03.04") "2018.03.05"
      = (logPath "2018.03.05", true)
    ∧ rotateCheck (logPath "2018.03.05") "2018.03.05"
      = (logPath "2018.03.05", false) :=
  ⟨(log_rotation_on_new_day "2018.03.05" "2018.03.04" (logPath "2018.03.05")).1
      (by decide),
   (log_rotation_on_new_day "2018.03.05" "2018.03.05"
      (logPath "2018.03.05")).2.1 rfl⟩

/-- C10: the sink opened at startup has the fixed non-dated path
`run-fan-default.log`, which never equals a dated path (every `dateStamp`
output contains a dot), so the very first tick of every run rotates: it
closes the default sink, opens the dated sink and runs the retention
sweep, even though no day boundary was crossed. -/
theorem first_tick_always_rotates (y m d : ℕ) :
    rotateCheck defaultLogName (dateStamp y m d)
      = (logPath (dateStamp y m d), true) := by
  have hdflt : defaultLogName = logPath "default" := by decide
  have hne : logPath (dateStamp y m d) ≠ defaultLogName := by
    rw [hdflt]
    intro h
    exact dateStamp_ne_default y m d (logPath_injective h)
  simp [rotateCheck, hne]

end RunFan
